import Mathlib

/-!
Verification development for `blender-dof-utils` (`dof-utils.py`).

The file embeds the computational core of the addon into Lean over real
numbers: the optics model (`fstops`, `dof_calculation`), the helpers
(`is_camera`, `distance`), the `mathutils` routine `intersect_point_line`,
and the viewport geometry builder (`draw_circle`, `draw_empty_2d`,
`draw_callback_3d`).  Machine floats are modelled by `ℝ`; Python's
`ZeroDivisionError` is tracked separately by the predicate
`dof_divisions_ok`, since real division in Lean is total.
-/

noncomputable section

/-- A 3-component vector, modelling `mathutils.Vector` over `ℝ`. -/
structure Vec3 where
  x : ℝ
  y : ℝ
  z : ℝ

instance : Add Vec3 := ⟨fun a b => ⟨a.x + b.x, a.y + b.y, a.z + b.z⟩⟩

instance : Sub Vec3 := ⟨fun a b => ⟨a.x - b.x, a.y - b.y, a.z - b.z⟩⟩

@[simp] theorem Vec3.add_x (a b : Vec3) : (a + b).x = a.x + b.x := rfl

@[simp] theorem Vec3.add_y (a b : Vec3) : (a + b).y = a.y + b.y := rfl

@[simp] theorem Vec3.add_z (a b : Vec3) : (a + b).z = a.z + b.z := rfl

@[simp] theorem Vec3.sub_x (a b : Vec3) : (a - b).x = a.x - b.x := rfl

@[simp] theorem Vec3.sub_y (a b : Vec3) : (a - b).y = a.y - b.y := rfl

@[simp] theorem Vec3.sub_z (a b : Vec3) : (a - b).z = a.z - b.z := rfl

/-- Scalar multiplication of a vector. -/
def Vec3.scale (t : ℝ) (v : Vec3) : Vec3 := ⟨t * v.x, t * v.y, t * v.z⟩

/-- Dot product, modelling `mathutils.Vector.dot`. -/
def Vec3.dot (a b : Vec3) : ℝ := a.x * b.x + a.y * b.y + a.z * b.z

/-- Euclidean norm, modelling `mathutils.Vector.length`. -/
def Vec3.length (v : Vec3) : ℝ := Real.sqrt (Vec3.dot v v)

/-- The `dof` block of a Blender camera data-block: the fields of
`camera_data.dof` read by the addon (`aperture_fstop`, `focus_distance`,
`focus_object`).  A focus object is modelled by its world translation
`matrix_world.translation`, the only datum the addon reads from it. -/
structure DofSettings where
  aperture_fstop : ℝ
  focus_distance : ℝ
  focus_object : Option Vec3

/-- The camera data-block fields read by the addon (`camera_data.lens`,
`sensor_width`, `sensor_height`, `clip_start`, `clip_end`, `dof`). -/
structure CameraData where
  lens : ℝ
  sensor_width : ℝ
  sensor_height : ℝ
  clip_start : ℝ
  clip_end : ℝ
  dof : DofSettings

/-- Source `fstops(camera_data, magnification)`: the aperture-radius branch
is commented out in the source ("rem as radius option not exist"), so the
live code returns `camera_data.dof.aperture_fstop` unconditionally. -/
def fstops (camera_data : CameraData) (magnification : ℝ) : ℝ :=
  camera_data.dof.aperture_fstop

/-- Source `dof_calculation(camera_data, dof_distance, magnification=1)`,
returning the pair `(nL, fL)` of near and far limits.  The initial dummy
assignments of the source (`m`, `f`, `N`, `c`, `d` constants, immediately
overwritten) are dead stores and omitted; the derived quantities `Hn`,
`DoF`, `DoFf`, `Dofb` are dead as well (the function returns `(nL, fL)`). -/
def dof_calculation (camera_data : CameraData) (dof_distance magnification : ℝ) :
    ℝ × ℝ :=
  let N := fstops camera_data magnification
  let f := camera_data.lens / 1000 * magnification
  let c := Real.sqrt (camera_data.sensor_width ^ 2 + camera_data.sensor_height ^ 2) / 1500
  let a := f ^ 2 / (N * c * magnification / 1000)
  let H := a + f
  let nL := (a * dof_distance) / (a + (dof_distance - f))
  let fL := if 0.01 > (H - dof_distance) then camera_data.clip_end
    else (a * dof_distance) / (a - (dof_distance - f))
  (nL, fL)

/-- Circle of confusion `c` of the source (line `c = math.sqrt(...)/1500`),
in millimetre scale. -/
def coc (camera_data : CameraData) : ℝ :=
  Real.sqrt (camera_data.sensor_width ^ 2 + camera_data.sensor_height ^ 2) / 1500

/-- Focal length in meters, `f = camera_data.lens / 1000` (magnification 1). -/
def focal_m (camera_data : CameraData) : ℝ := camera_data.lens / 1000

/-- The quantity `a = f² / (N * c / 1000)` of the source at magnification 1
(the `/ 1000` converts the millimetre-scale circle of confusion to meters);
`a` equals hyperfocal distance minus focal length. -/
def aConst (camera_data : CameraData) : ℝ :=
  focal_m camera_data ^ 2 / (camera_data.dof.aperture_fstop * coc camera_data / 1000)

/-- Hyperfocal distance `H = a + f` of the source at magnification 1. -/
def hyperfocal (camera_data : CameraData) : ℝ :=
  aConst camera_data + focal_m camera_data

/-- The near limit computed by `dof_calculation` at magnification 1 is
`a * d / (a + (d - f))`. -/
theorem dof_calculation_near (cd : CameraData) (d : ℝ) :
    (dof_calculation cd d 1).1 = aConst cd * d / (aConst cd + (d - focal_m cd)) := by
  simp [dof_calculation, fstops, aConst, coc, focal_m]

/-- The far limit computed by `dof_calculation` at magnification 1 is
`clip_end` in the saturated branch and `a * d / (a - (d - f))` otherwise. -/
theorem dof_calculation_far (cd : CameraData) (d : ℝ) :
    (dof_calculation cd d 1).2 =
      if 0.01 > hyperfocal cd - d then cd.clip_end
      else aConst cd * d / (aConst cd - (d - focal_m cd)) := by
  simp [dof_calculation, fstops, aConst, coc, focal_m, hyperfocal]

/-- Validity of camera intrinsics as stated by the specification's data
model: positive focal length, aperture f-stop and sensor dimensions, and
`0 ≤ clip_start < clip_end`. -/
def ValidIntrinsics (cd : CameraData) : Prop :=
  0 < cd.lens ∧ 0 < cd.dof.aperture_fstop ∧ 0 < cd.sensor_width ∧
    0 < cd.sensor_height ∧ 0 ≤ cd.clip_start ∧ cd.clip_start < cd.clip_end

theorem coc_pos (cd : CameraData) (hw : 0 < cd.sensor_width)
    (hh : 0 < cd.sensor_height) : 0 < coc cd := by
  have h : 0 < cd.sensor_width ^ 2 + cd.sensor_height ^ 2 := by positivity
  exact div_pos (Real.sqrt_pos.mpr h) (by norm_num)

theorem focal_m_pos (cd : CameraData) (hl : 0 < cd.lens) : 0 < focal_m cd := by
  unfold focal_m; positivity

theorem aConst_pos (cd : CameraData) (hv : ValidIntrinsics cd) : 0 < aConst cd := by
  obtain ⟨hl, ha, hw, hh, _, _⟩ := hv
  have hc := coc_pos cd hw hh
  have hf := focal_m_pos cd hl
  unfold aConst
  positivity

/-- Denominators that Python evaluates in `dof_calculation`: a run raises
`ZeroDivisionError` exactly when one of them is zero.  The divisor of the
far-limit formula is only evaluated in the unsaturated branch. -/
def dof_divisions_ok (camera_data : CameraData) (dof_distance magnification : ℝ) :
    Prop :=
  let N := fstops camera_data magnification
  let f := camera_data.lens / 1000 * magnification
  let c := Real.sqrt (camera_data.sensor_width ^ 2 + camera_data.sensor_height ^ 2) / 1500
  let a := f ^ 2 / (N * c * magnification / 1000)
  let H := a + f
  N * c * magnification / 1000 ≠ 0 ∧
    a + (dof_distance - f) ≠ 0 ∧
    (0.01 > H - dof_distance ∨ a - (dof_distance - f) ≠ 0)

/-- The division guard predicate at magnification 1, rephrased through the
named helper quantities. -/
theorem dof_divisions_ok_iff (cd : CameraData) (d : ℝ) :
    dof_divisions_ok cd d 1 ↔
      (cd.dof.aperture_fstop * coc cd / 1000 ≠ 0 ∧
        aConst cd + (d - focal_m cd) ≠ 0 ∧
        (0.01 > hyperfocal cd - d ∨ aConst cd - (d - focal_m cd) ≠ 0)) := by
  simp [dof_divisions_ok, fstops, aConst, coc, focal_m, hyperfocal]

/-- For valid intrinsics and a focus distance of at least the focal length
no denominator of `dof_calculation` vanishes. -/
theorem dof_divisions_hold (cd : CameraData) (d : ℝ) (hv : ValidIntrinsics cd)
    (hf : focal_m cd ≤ d) : dof_divisions_ok cd d 1 := by
  obtain ⟨hl, ha, hw, hh, _, _⟩ := hv
  have hc := coc_pos cd hw hh
  have hA : 0 < aConst cd :=
    aConst_pos cd ⟨hl, ha, hw, hh, by assumption, by assumption⟩
  rw [dof_divisions_ok_iff]
  refine ⟨?_, ?_, ?_⟩
  · have : 0 < cd.dof.aperture_fstop * coc cd / 1000 := by positivity
    exact ne_of_gt this
  · have hpos : 0 < aConst cd + (d - focal_m cd) := by
      have := sub_nonneg.mpr hf
      linarith
    exact ne_of_gt hpos
  · by_cases hs : 0.01 > hyperfocal cd - d
    · exact Or.inl hs
    · refine Or.inr ?_
      push_neg at hs
      have : aConst cd - (d - focal_m cd) = hyperfocal cd - d := by
        unfold hyperfocal; ring
      rw [this]
      intro h0
      rw [h0] at hs
      norm_num at hs

/-- For valid intrinsics and `f ≤ d ≤ clip_end` the triple is ordered:
`0 ≤ nearLimit ≤ d ≤ farLimit`. -/
theorem dof_triple_ordered (cd : CameraData) (d : ℝ) (hv : ValidIntrinsics cd)
    (hf : focal_m cd ≤ d) (hce : d ≤ cd.clip_end) :
    0 ≤ (dof_calculation cd d 1).1 ∧ (dof_calculation cd d 1).1 ≤ d ∧
      d ≤ (dof_calculation cd d 1).2 := by
  obtain ⟨hl, ha, hw, hh, hcs, hcc⟩ := hv
  have hA : 0 < aConst cd := aConst_pos cd ⟨hl, ha, hw, hh, hcs, hcc⟩
  have hF : 0 < focal_m cd := focal_m_pos cd hl
  have hd : 0 < d := lt_of_lt_of_le hF hf
  have hden : 0 < aConst cd + (d - focal_m cd) := by
    have := sub_nonneg.mpr hf
    linarith
  refine ⟨?_, ?_, ?_⟩
  · rw [dof_calculation_near]
    exact div_nonneg (mul_nonneg hA.le hd.le) hden.le
  · rw [dof_calculation_near]
    rw [div_le_iff₀ hden]
    nlinarith [mul_nonneg (sub_nonneg.mpr hf) hd.le]
  · rw [dof_calculation_far]
    split_ifs with hs
    · exact hce
    · push_neg at hs
      have hden2 : 0 < aConst cd - (d - focal_m cd) := by
        have : aConst cd - (d - focal_m cd) = hyperfocal cd - d := by
          unfold hyperfocal; ring
        rw [this]; linarith
      rw [le_div_iff₀ hden2]
      nlinarith [mul_nonneg (sub_nonneg.mpr hf) hd.le]

/-- A camera world transform after `matrix_world.normalized()` (with the
unit `target_scale` of the source, `temp_matrix = nmat @ smat = nmat`): a
linear part applied to direction vectors plus a translation, so that
`temp_matrix @ v = rot v + translation` and `temp_matrix.translation`
is the camera position. -/
structure Pose where
  rot : Vec3 → Vec3
  translation : Vec3

/-- Application of a 4x4 transform to a point, `matrix @ v`. -/
def poseApply (m : Pose) (v : Vec3) : Vec3 := m.rot v + m.translation

/-- The identity transform: a camera at the origin with identity
orientation (facing `-Z` by Blender's convention). -/
def identity_pose : Pose := ⟨fun v => v, ⟨0, 0, 0⟩⟩

/-- Source `mathutils.geometry.intersect_point_line(pt, line_p1, line_p2)`:
the closest point to `pt` on the infinite line through `line_p1` and
`line_p2`, together with the interpolation factor. -/
def intersect_point_line (pt line_p1 line_p2 : Vec3) : Vec3 × ℝ :=
  let u := line_p2 - line_p1
  let h := pt - line_p1
  let t := Vec3.dot h u / Vec3.dot u u
  (line_p1 + Vec3.scale t u, t)

/-- Focus-distance resolution of the `focus_object` branch of
`draw_callback_3d` (source lines 215-222): project the target translation
`pt` onto the line through the camera position and `temp_matrix @ (0,0,-1)`,
then `d = (loc[0] - start).length + clip_start` where
`start = temp_matrix @ (0, 0, -clip_start)`. -/
def resolve_target_distance (temp_matrix : Pose) (clip_start : ℝ) (pt : Vec3) : ℝ :=
  let start := poseApply temp_matrix ⟨0, 0, -clip_start⟩
  let loc := intersect_point_line pt temp_matrix.translation
    (poseApply temp_matrix ⟨0, 0, -1⟩)
  (loc.1 - start).length + clip_start

/-- Source helper `distance(pt1, pt2)`: sorts the two points by `z`
descending (`pt_apex` the higher, `pt_base` the lower; Python's sort is
stable, so on a tie `pt_apex = pt1`), then returns
`(Vector((pt_apex.x, pt_apex.y, pt_base.z)) - pt_base).length`. -/
def distance (pt1 pt2 : Vec3) : ℝ :=
  if pt1.z < pt2.z then (Vec3.mk pt2.x pt2.y pt1.z - pt1).length
  else (Vec3.mk pt1.x pt1.y pt2.z - pt2).length

/-- The assignment performed by `DOFU_OT_focusPicking.modal` on a
`LEFTMOUSE`/`RELEASE` event: the value written into
`context.object.data.dof.focus_distance`, namely
`distance(scene.cursor.location, context.object.matrix_world.to_translation())`. -/
def focusPicking_set_distance (cursor_location cam_translation : Vec3) : ℝ :=
  distance cursor_location cam_translation

/-- One rotation step of the incremental circle recurrence of
`draw_circle`: `x' = c*x - s*y; y' = s*x + c*y` (the source stores the old
`x` in `t` before updating). -/
def circle_step (c s : ℝ) (p : ℝ × ℝ) : ℝ × ℝ :=
  (c * p.1 - s * p.2, s * p.1 + c * p.2)

/-- The loop of `draw_circle` producing `vector_list`: starting from the
state `p = (x, y)`, output `k` vertices `Vector((x, y, 0))`, rotating the
state after each output. -/
def circle_verts_aux (c s : ℝ) (p : ℝ × ℝ) : ℕ → List Vec3
  | 0 => []
  | Nat.succ k => Vec3.mk p.1 p.2 0 :: circle_verts_aux c s (circle_step c s p) k

/-- Source `draw_circle(matrix, radius, num_segments, offset, ...)`: the
list of world-space vertices handed to `draw_poly` — `num_segments + 1`
vertices of the incremental-rotation circle (`theta = 2*pi/num_segments`,
start state `(radius, 0)`), each translated by `(0, 0, offset)` (the `'Z'`
entry of `translate`) and mapped through `matrix`. -/
def draw_circle (matrix : Pose) (radius : ℝ) (num_segments : ℕ) (offset : ℝ) :
    List Vec3 :=
  let theta := 2 * Real.pi / num_segments
  let c := Real.cos theta
  let s := Real.sin theta
  let vector_list := circle_verts_aux c s (radius, 0) (num_segments + 1)
  vector_list.map (fun v => poseApply matrix (v + Vec3.mk 0 0 offset))

/-- A draw primitive produced by the callback: a line segment with a color,
or a polyline (from `draw_poly`) with a color. -/
inductive Primitive where
  | line (color : ℝ × ℝ × ℝ × ℝ) (a b : Vec3)
  | poly (color : ℝ × ℝ × ℝ × ℝ) (points : List Vec3)

/-- Source `draw_empty_2d(matrix, size, offset, ...)`: four segments from
the translated origin to `±size` along local X and Y, each mapped through
`matrix`; the color argument is ignored by the inner `draw_line_3d` calls,
which use the default `(0, 0, 0, 1)`. -/
def draw_empty_2d (matrix : Pose) (size offset : ℝ) : List Primitive :=
  let vector_list : List Vec3 :=
    [⟨size, 0, 0⟩, ⟨-size, 0, 0⟩, ⟨0, size, 0⟩, ⟨0, -size, 0⟩]
  let translate := Vec3.mk 0 0 offset
  let origin := poseApply matrix translate
  vector_list.map (fun v =>
    Primitive.line (0, 0, 0, 1) origin (poseApply matrix (v + translate)))

/-- The `dof_utils` property group fields read by `draw_callback_3d`
(`DOFU_PG_settings`). -/
structure DofuSettings where
  overlay : Bool
  size_limits : ℝ
  fill_limits : Bool
  draw_focus : Bool
  color_limits : ℝ × ℝ × ℝ
  segments_limits : ℕ
  opacity_limits : ℝ
  limits : ℝ × ℝ × ℝ

/-- A scene object as seen by the addon: its `type` string, its world
transform (already normalized) and its camera data-block. -/
structure SceneObject where
  otype : String
  matrix_world : Pose
  data : CameraData

/-- The scene state read by `draw_callback_3d`: `context.object`,
`scene.camera` and the `scene.dof_utils` property group. -/
structure Scene where
  object : Option SceneObject
  camera : Option SceneObject
  dof_utils : DofuSettings

/-- Source `is_camera(obj)`: `obj is not None and obj.type == 'CAMERA'`. -/
def is_camera (obj : Option SceneObject) : Bool :=
  match obj with
  | none => false
  | some o => o.otype == "CAMERA"

/-- Source `draw_callback_3d(operator, context)`: selects the camera
object (`context.object` if it is a camera, else `scene.camera` if it is a
camera, else an early `return` that draws nothing and leaves
`dofu.limits` untouched), resolves the focus distance (directly from
`cam.dof.focus_distance`, or through the target-point projection when
`cam.dof.focus_object` is set), calls `dof_calculation`, writes
`dofu.limits = (d, near_limit, far_limit)` and emits the primitives: the
three colored sub-segments of the clip range, the two limit circles when
`size_limits > 0`, and the focus cross when `draw_focus` is set.  The
result models the pair (written-back `dofu.limits`, emitted primitives);
GPU state calls (blend, depth test, line width) have no geometric content
and are not modelled. -/
def draw_callback_3d (scn : Scene) : (ℝ × ℝ × ℝ) × List Primitive :=
  let dofu := scn.dof_utils
  let cam_ob? : Option SceneObject :=
    if is_camera scn.object then scn.object
    else if is_camera scn.camera then scn.camera
    else none
  match cam_ob? with
  | none => (dofu.limits, [])
  | some cam_ob =>
    let temp_matrix := cam_ob.matrix_world
    let cam := cam_ob.data
    let start := poseApply temp_matrix ⟨0, 0, -cam.clip_start⟩
    let endp := poseApply temp_matrix ⟨0, 0, -cam.clip_end⟩
    let d := match cam.dof.focus_object with
      | none => cam.dof.focus_distance
      | some pt => resolve_target_distance temp_matrix cam.clip_start pt
    let nf := dof_calculation cam d 1
    let near_limit := nf.1
    let far_limit := nf.2
    let dof_loc := poseApply temp_matrix ⟨0, 0, -near_limit⟩
    let dof_loc_end := poseApply temp_matrix ⟨0, 0, -far_limit⟩
    let limit_color : ℝ × ℝ × ℝ × ℝ :=
      (dofu.color_limits.1, dofu.color_limits.2.1, dofu.color_limits.2.2,
        dofu.opacity_limits)
    let lines : List Primitive :=
      [Primitive.line (1, 1, 1, 0.1) dof_loc_end endp,
        Primitive.line (1, 1, 1, 0.1) dof_loc start,
        Primitive.line limit_color dof_loc_end dof_loc]
    let circles : List Primitive :=
      if 0 < dofu.size_limits then
        [near_limit, far_limit].map (fun i =>
          Primitive.poly limit_color
            (draw_circle temp_matrix dofu.size_limits dofu.segments_limits (-i)))
      else []
    let focus : List Primitive :=
      if dofu.draw_focus then
        draw_empty_2d temp_matrix (dofu.size_limits * 1.7) (-d)
      else []
    ((d, near_limit, far_limit), lines ++ circles ++ focus)

/-- A valid 50mm f/2.8 camera with a 30x40mm sensor (diagonal exactly
50mm, so the circle of confusion is rational) and clip range 0.1..1000. -/
def cd1 : CameraData := ⟨50, 30, 40, 0.1, 1000, ⟨2.8, 3, none⟩⟩

/-- The same camera as `cd1` with the extreme (but valid, `> 0`) aperture
f-stop 1875, for which `a = f²/(N·c/1000) = 0.04` lies below `f = 0.05`. -/
def cdZ : CameraData := ⟨50, 30, 40, 0.1, 1000, ⟨1875, 3, none⟩⟩

/-- The end-to-end example of the specification: 50mm, f/2.8, full-frame
36x24mm sensor, clip end 1000. -/
def cdEx : CameraData := ⟨50, 36, 24, 0.1, 1000, ⟨2.8, 3, none⟩⟩

theorem sqrt_2500 : Real.sqrt ((30:ℝ) ^ 2 + (40:ℝ) ^ 2) = 50 := by
  rw [show ((30:ℝ) ^ 2 + (40:ℝ) ^ 2) = 50 ^ 2 by norm_num]
  exact Real.sqrt_sq (by norm_num)

theorem coc_cd1 : coc cd1 = 1 / 30 := by
  show Real.sqrt ((30:ℝ) ^ 2 + (40:ℝ) ^ 2) / 1500 = 1 / 30
  rw [sqrt_2500]; norm_num

theorem coc_cdZ : coc cdZ = 1 / 30 := by
  show Real.sqrt ((30:ℝ) ^ 2 + (40:ℝ) ^ 2) / 1500 = 1 / 30
  rw [sqrt_2500]; norm_num

theorem focal_cd1 : focal_m cd1 = 1 / 20 := by
  norm_num [focal_m, cd1]

theorem focal_cdZ : focal_m cdZ = 1 / 20 := by
  norm_num [focal_m, cdZ]

theorem aConst_cd1 : aConst cd1 = 375 / 14 := by
  rw [aConst, coc_cd1]
  norm_num [focal_m, cd1]

theorem aConst_cdZ : aConst cdZ = 1 / 25 := by
  rw [aConst, coc_cdZ]
  norm_num [focal_m, cdZ]

theorem hyperfocal_cd1 : hyperfocal cd1 = 3757 / 140 := by
  rw [hyperfocal, aConst_cd1, focal_cd1]
  norm_num

theorem hyperfocal_cdZ : hyperfocal cdZ = 9 / 100 := by
  rw [hyperfocal, aConst_cdZ, focal_cdZ]
  norm_num

theorem valid_cd1 : ValidIntrinsics cd1 := by
  refine ⟨?_, ?_, ?_, ?_, ?_, ?_⟩ <;> norm_num [cd1]

theorem valid_cdZ : ValidIntrinsics cdZ := by
  refine ⟨?_, ?_, ?_, ?_, ?_, ?_⟩ <;> norm_num [cdZ]

/-- C1: the claimed invariant `0 ≤ nearLimit ≤ focusDistance ≤ farLimit`
fails for a valid camera when the focus distance drops below the focal
length: for `cd1` (50mm f/2.8, 30x40 sensor) at `focusDistance = 0.01 > 0`
the computed near limit exceeds the focus distance. -/
theorem C1_counterexample :
    ValidIntrinsics cd1 ∧ (0:ℝ) < 0.01 ∧
      ¬ ((dof_calculation cd1 0.01 1).1 ≤ 0.01) := by
  refine ⟨valid_cd1, by norm_num, ?_⟩
  rw [dof_calculation_near, aConst_cd1, focal_cd1]
  norm_num

/-- C1 (amended): for every valid `CameraData` and focus distance `d` with
`focal_m cd ≤ d ≤ clip_end`, the triple returned by `dof_calculation`
satisfies `0 ≤ nearLimit ≤ d ≤ farLimit`, including the saturated branch
(where the far limit is `clip_end ≥ d`). -/
theorem C1_limits_ordered (cd : CameraData) (d : ℝ) (hv : ValidIntrinsics cd)
    (hf : focal_m cd ≤ d) (hce : d ≤ cd.clip_end) :
    0 ≤ (dof_calculation cd d 1).1 ∧ (dof_calculation cd d 1).1 ≤ d ∧
      d ≤ (dof_calculation cd d 1).2 :=
  dof_triple_ordered cd d hv hf hce

theorem C1_limits_ordered_witness :
    ValidIntrinsics cd1 ∧ focal_m cd1 ≤ 3 ∧ (3:ℝ) ≤ cd1.clip_end ∧
      (0 ≤ (dof_calculation cd1 3 1).1 ∧ (dof_calculation cd1 3 1).1 ≤ 3 ∧
        3 ≤ (dof_calculation cd1 3 1).2) :=
  ⟨valid_cd1, by rw [focal_cd1]; norm_num, by norm_num [cd1],
    C1_limits_ordered cd1 3 valid_cd1 (by rw [focal_cd1]; norm_num)
      (by norm_num [cd1])⟩

/-- C5: totality fails as claimed: for the valid camera `cdZ`
(f-stop 1875) at `focusDistance = 0.01 ≥ 0` the denominator
`a + (d - f) = 0.04 + (0.01 - 0.05)` of the near-limit formula is zero, so
Python raises `ZeroDivisionError`. -/
theorem C5_counterexample :
    ValidIntrinsics cdZ ∧ (0:ℝ) ≤ 0.01 ∧ ¬ dof_divisions_ok cdZ 0.01 1 := by
  refine ⟨valid_cdZ, by norm_num, ?_⟩
  rw [dof_divisions_ok_iff]
  intro h
  apply h.2.1
  rw [aConst_cdZ, focal_cdZ]
  norm_num

/-- C5 (amended): for every valid `CameraData` and focus distance `d` with
`focal_m cd ≤ d ≤ clip_end`, `dof_calculation` divides by no zero
denominator (so the Python code raises no exception) and returns an
ordered `(near, focus, far)` triple; below the focal length a denominator
can vanish. -/
theorem C5_totality (cd : CameraData) (d : ℝ) (hv : ValidIntrinsics cd)
    (hf : focal_m cd ≤ d) (hce : d ≤ cd.clip_end) :
    dof_divisions_ok cd d 1 ∧
      (0 ≤ (dof_calculation cd d 1).1 ∧ (dof_calculation cd d 1).1 ≤ d ∧
        d ≤ (dof_calculation cd d 1).2) :=
  ⟨dof_divisions_hold cd d hv hf, dof_triple_ordered cd d hv hf hce⟩

theorem C5_totality_witness :
    ValidIntrinsics cd1 ∧ focal_m cd1 ≤ 3 ∧ (3:ℝ) ≤ cd1.clip_end ∧
      (dof_divisions_ok cd1 3 1 ∧
        (0 ≤ (dof_calculation cd1 3 1).1 ∧ (dof_calculation cd1 3 1).1 ≤ 3 ∧
          3 ≤ (dof_calculation cd1 3 1).2)) :=
  ⟨valid_cd1, by rw [focal_cd1]; norm_num, by norm_num [cd1],
    C5_totality cd1 3 valid_cd1 (by rw [focal_cd1]; norm_num)
      (by norm_num [cd1])⟩

/-- C6: strict monotonicity of the near limit in the focus distance fails
on the claimed range: for the valid camera `cdZ` (for which
`a = 0.04 < f = 0.05`) and `0 < 0.002 < 0.005 < hyperfocal`, the near
limit at the larger distance is smaller. -/
theorem C6_counterexample :
    ValidIntrinsics cdZ ∧ (0:ℝ) < 0.002 ∧ (0.002:ℝ) < 0.005 ∧
      (0.005:ℝ) < hyperfocal cdZ ∧
      ¬ ((dof_calculation cdZ 0.002 1).1 < (dof_calculation cdZ 0.005 1).1) := by
  refine ⟨valid_cdZ, by norm_num, by norm_num, ?_, ?_⟩
  · rw [hyperfocal_cdZ]; norm_num
  · rw [dof_calculation_near, dof_calculation_near, aConst_cdZ, focal_cdZ]
    norm_num

/-- C6 (amended): for fixed valid intrinsics with `focal_m cd < aConst cd`
(equivalently `hyperfocal > 2·f`, which holds for every realistic
aperture), the near limit is strictly increasing in the focus distance on
`0 < d₁ < d₂ < hyperfocal`. -/
theorem C6_near_monotone (cd : CameraData) (d1 d2 : ℝ) (hv : ValidIntrinsics cd)
    (hfa : focal_m cd < aConst cd) (h1 : 0 < d1) (h12 : d1 < d2)
    (h2 : d2 < hyperfocal cd) :
    (dof_calculation cd d1 1).1 < (dof_calculation cd d2 1).1 := by
  have hA := aConst_pos cd hv
  rw [dof_calculation_near, dof_calculation_near]
  have hden1 : 0 < aConst cd + (d1 - focal_m cd) := by linarith
  have hden2 : 0 < aConst cd + (d2 - focal_m cd) := by linarith
  rw [div_lt_div_iff₀ hden1 hden2]
  nlinarith [mul_pos (mul_pos hA (sub_pos.mpr hfa)) (sub_pos.mpr h12)]

theorem C6_near_monotone_witness :
    ValidIntrinsics cd1 ∧ focal_m cd1 < aConst cd1 ∧ (0:ℝ) < 1 ∧ (1:ℝ) < 2 ∧
      (2:ℝ) < hyperfocal cd1 ∧
      (dof_calculation cd1 1 1).1 < (dof_calculation cd1 2 1).1 :=
  ⟨valid_cd1, by rw [focal_cd1, aConst_cd1]; norm_num, by norm_num, by norm_num,
    by rw [hyperfocal_cd1]; norm_num,
    C6_near_monotone cd1 1 2 valid_cd1 (by rw [focal_cd1, aConst_cd1]; norm_num)
      (by norm_num) (by norm_num) (by rw [hyperfocal_cd1]; norm_num)⟩

theorem valid_cdEx : ValidIntrinsics cdEx := by
  refine ⟨?_, ?_, ?_, ?_, ?_, ?_⟩ <;> norm_num [cdEx]

theorem sqrt_1872_gt : (43:ℝ) < Real.sqrt ((36:ℝ) ^ 2 + (24:ℝ) ^ 2) :=
  (Real.lt_sqrt (by norm_num)).mpr (by norm_num)

theorem sqrt_1872_lt : Real.sqrt ((36:ℝ) ^ 2 + (24:ℝ) ^ 2) < 43.5 :=
  (Real.sqrt_lt' (by norm_num)).mpr (by norm_num)

theorem aConst_cdEx_bounds : 30.5 < aConst cdEx ∧ aConst cdEx < 31.5 := by
  have hs1 := sqrt_1872_gt
  have hs2 := sqrt_1872_lt
  have hden : (0:ℝ) < 2.8 * (Real.sqrt ((36:ℝ) ^ 2 + (24:ℝ) ^ 2) / 1500) / 1000 := by
    have : (0:ℝ) < Real.sqrt ((36:ℝ) ^ 2 + (24:ℝ) ^ 2) := by linarith
    positivity
  constructor
  · show (30.5:ℝ) <
      ((50:ℝ) / 1000) ^ 2 /
        ((2.8:ℝ) * (Real.sqrt ((36:ℝ) ^ 2 + (24:ℝ) ^ 2) / 1500) / 1000)
    rw [lt_div_iff₀ hden, show ((50:ℝ) / 1000) ^ 2 = 1 / 400 by norm_num]
    set s := Real.sqrt ((36:ℝ) ^ 2 + (24:ℝ) ^ 2)
    linarith
  · show ((50:ℝ) / 1000) ^ 2 /
        ((2.8:ℝ) * (Real.sqrt ((36:ℝ) ^ 2 + (24:ℝ) ^ 2) / 1500) / 1000) < 31.5
    rw [div_lt_iff₀ hden, show ((50:ℝ) / 1000) ^ 2 = 1 / 400 by norm_num]
    set s := Real.sqrt ((36:ℝ) ^ 2 + (24:ℝ) ^ 2)
    linarith

theorem focal_cdEx : focal_m cdEx = 1 / 20 := by
  norm_num [focal_m, cdEx]

/-- C3: `dof_calculation` implements the thin-lens algorithm — at
magnification 1 the near limit is `a·d / (a + (d - f))` with
`a = f²/(N·c/1000)`, `c = sqrt(sensor_width² + sensor_height²)/1500`,
`f = lens/1000` (the definitions of `aConst`, `coc`, `focal_m`) — and on
the end-to-end example `cdEx` (50mm, f/2.8, 36x24mm, focus 3.0,
clip end 1000) the near limit lies in `[2.7, 2.95]` and the far limit in
`[3.05, 3.4]`. -/
theorem C3_thin_lens :
    (∀ cd d, (dof_calculation cd d 1).1 =
        aConst cd * d / (aConst cd + (d - focal_m cd))) ∧
      (2.7 ≤ (dof_calculation cdEx 3 1).1 ∧ (dof_calculation cdEx 3 1).1 ≤ 2.95) ∧
      (3.05 ≤ (dof_calculation cdEx 3 1).2 ∧ (dof_calculation cdEx 3 1).2 ≤ 3.4) := by
  obtain ⟨hA1, hA2⟩ := aConst_cdEx_bounds
  have hfoc := focal_cdEx
  have hH : hyperfocal cdEx = aConst cdEx + 1 / 20 := by rw [hyperfocal, hfoc]
  refine ⟨fun cd d => dof_calculation_near cd d, ⟨?_, ?_⟩, ?_⟩
  · rw [dof_calculation_near, hfoc]
    have hden : (0:ℝ) < aConst cdEx + (3 - 1 / 20) := by linarith
    rw [le_div_iff₀ hden]
    linarith
  · rw [dof_calculation_near, hfoc]
    have hden : (0:ℝ) < aConst cdEx + (3 - 1 / 20) := by linarith
    rw [div_le_iff₀ hden]
    linarith
  · rw [dof_calculation_far, hfoc]
    rw [if_neg (by rw [hH]; norm_num; linarith)]
    have hden : (0:ℝ) < aConst cdEx - (3 - 1 / 20) := by linarith
    constructor
    · rw [le_div_iff₀ hden]
      linarith
    · rw [div_le_iff₀ hden]
      linarith

/-- C2: the far-limit saturation rule of `dof_calculation` — the far limit
equals `clip_end` exactly when `H - d < 0.01` (in particular whenever
`d ≥ H`), equals `a·d / (a - (d - f))` otherwise, and the saturated value
is positive (never NaN or negative) for valid intrinsics. -/
theorem C2_far_saturation (cd : CameraData) (d : ℝ) (hv : ValidIntrinsics cd) :
    (hyperfocal cd - d < 0.01 → (dof_calculation cd d 1).2 = cd.clip_end) ∧
      (hyperfocal cd ≤ d → (dof_calculation cd d 1).2 = cd.clip_end) ∧
      (0.01 ≤ hyperfocal cd - d →
        (dof_calculation cd d 1).2 =
          aConst cd * d / (aConst cd - (d - focal_m cd))) ∧
      (hyperfocal cd - d < 0.01 → 0 < (dof_calculation cd d 1).2) := by
  obtain ⟨_, _, _, _, hcs, hcc⟩ := hv
  have hce : 0 < cd.clip_end := lt_of_le_of_lt hcs hcc
  refine ⟨?_, ?_, ?_, ?_⟩
  · intro h
    rw [dof_calculation_far, if_pos h]
  · intro h
    have h2 : hyperfocal cd - d < 0.01 := by linarith
    rw [dof_calculation_far, if_pos h2]
  · intro h
    rw [dof_calculation_far, if_neg (not_lt.mpr h)]
  · intro h
    rw [dof_calculation_far, if_pos h]
    exact hce

theorem C2_far_saturation_witness :
    ValidIntrinsics cd1 ∧ hyperfocal cd1 - 30 < 0.01 ∧
      (dof_calculation cd1 30 1).2 = cd1.clip_end :=
  ⟨valid_cd1, by rw [hyperfocal_cd1]; norm_num,
    (C2_far_saturation cd1 30 valid_cd1).1 (by rw [hyperfocal_cd1]; norm_num)⟩

/-- For a camera with identity pose (at the origin, facing `-Z`) and a
target point at or beyond the near clip plane, the resolved focus distance
is exactly the axial distance `-p.z` from the camera position: the source
measures from the near-clip point `start` and then adds `clip_start`
back. -/
theorem resolve_target_identity (cs : ℝ) (p : Vec3) (hz : p.z ≤ -cs) :
    resolve_target_distance identity_pose cs p = -p.z := by
  have key : resolve_target_distance identity_pose cs p =
      Real.sqrt ((p.z + cs) ^ 2) + cs := by
    simp [resolve_target_distance, intersect_point_line, poseApply, identity_pose,
      Vec3.scale, Vec3.dot, Vec3.length]
    ring_nf
  rw [key, Real.sqrt_sq_eq_abs, abs_of_nonpos (by linarith)]
  ring

/-- C4: the claimed resolution value is wrong: for a camera at the origin
facing `-Z` with `clip_start = 0.1` and target point `(0, 0, -5)`, the
code resolves the focus distance to `5.0` (the distance from the camera
position), not to `5.1` (that distance plus `clip_start`). -/
theorem C4_counterexample :
    resolve_target_distance identity_pose 0.1 ⟨0, 0, -5⟩ = 5 ∧
      resolve_target_distance identity_pose 0.1 ⟨0, 0, -5⟩ ≠ 5.1 := by
  have h : resolve_target_distance identity_pose 0.1 ⟨0, 0, -5⟩ = 5 := by
    rw [resolve_target_identity 0.1 ⟨0, 0, -5⟩ (by norm_num)]
    norm_num
  exact ⟨h, by rw [h]; norm_num⟩

/-- C4 (amended): the builder projects the target point onto the camera
ray and takes the Euclidean distance from the near-clip point
(`temp_matrix @ (0,0,-clip_start)`) to the projected point, plus
`clip_start` — which for a camera at the origin facing `-Z` and a target
at or beyond the near plane equals the axial distance `-p.z` from the
camera position itself; in particular the example with `clip_start = 0.1`
and target `(0, 0, -5)` resolves to `5.0`. -/
theorem C4_target_resolution (cs : ℝ) (p : Vec3) (hz : p.z ≤ -cs) :
    resolve_target_distance identity_pose cs p = -p.z :=
  resolve_target_identity cs p hz

theorem C4_target_resolution_witness :
    (Vec3.mk 0 0 (-5)).z ≤ -(0.1:ℝ) ∧
      resolve_target_distance identity_pose 0.1 ⟨0, 0, -5⟩ = 5 := by
  refine ⟨by norm_num, ?_⟩
  rw [C4_target_resolution 0.1 ⟨0, 0, -5⟩ (by norm_num)]
  norm_num

/-- Default `dof_utils` settings used by the concrete scenes (matching the
property-group defaults of `DOFU_PG_settings`). -/
def dofu0 : DofuSettings := ⟨true, 0.1, false, false, (0, 1, 0), 16, 0.9, (0, 0, 0)⟩

/-- A scene whose active object and scene camera are both absent. -/
def scnEmpty : Scene := ⟨none, none, dofu0⟩

/-- C8: when neither the active object nor the scene camera is a
camera-type entity, `draw_callback_3d` returns with no primitives emitted
and the stored `dofu.limits` unchanged. -/
theorem C8_no_camera (scn : Scene) (h1 : is_camera scn.object = false)
    (h2 : is_camera scn.camera = false) :
    draw_callback_3d scn = (scn.dof_utils.limits, []) := by
  simp [draw_callback_3d, h1, h2]

theorem C8_no_camera_witness :
    is_camera scnEmpty.object = false ∧ is_camera scnEmpty.camera = false ∧
      draw_callback_3d scnEmpty = (scnEmpty.dof_utils.limits, []) :=
  ⟨rfl, rfl, C8_no_camera scnEmpty rfl rfl⟩

/-- Whenever a camera object is selected, the emitted primitive list of
`draw_callback_3d` contains at least the three clip-range segments — the
callback has no branch that skips emission. -/
theorem draw_callback_emits (scn : Scene) (obj : SceneObject)
    (hobj : scn.object = some obj) (htype : obj.otype = "CAMERA") :
    3 ≤ (draw_callback_3d scn).2.length := by
  simp only [draw_callback_3d, hobj, is_camera, htype]
  simp [List.length_append]

/-- A pose whose linear part is the zero map: the camera forward direction
`rot (0,0,-1)` has zero length. -/
def zero_pose : Pose := ⟨fun _ => ⟨0, 0, 0⟩, ⟨0, 0, 0⟩⟩

/-- A camera-type object with a degenerate (zero) orientation and a focus
object set, so that target-point resolution runs on a zero-length forward
vector. -/
def objDegen : SceneObject :=
  ⟨"CAMERA", zero_pose, ⟨50, 30, 40, 0.1, 1000, ⟨2.8, 3, some ⟨1, 2, 3⟩⟩⟩⟩

/-- A scene whose active object is the degenerate camera `objDegen`. -/
def scnDegen : Scene := ⟨some objDegen, none, dofu0⟩

/-- C9: the claimed guard does not exist: with a zero-length camera
forward direction during target-point resolution the callback does not
skip geometry emission — it emits its primitives anyway (the projection
denominator `dot u u = 0` is unguarded in the source; Python/C produce
NaN coordinates there, modelled here by Lean's total division). -/
theorem C9_counterexample :
    objDegen.matrix_world.rot ⟨0, 0, -1⟩ = ⟨0, 0, 0⟩ ∧
      objDegen.data.dof.focus_object.isSome = true ∧
      (draw_callback_3d scnDegen).2 ≠ [] := by
  refine ⟨rfl, rfl, ?_⟩
  have h := draw_callback_emits scnDegen objDegen rfl rfl
  intro hnil
  rw [hnil] at h
  simp at h

/-- C9 (amended): the degenerate-projection case is not guarded: even when
the camera forward direction has zero length (and a focus object forces
the target-point projection), `draw_callback_3d` proceeds and emits its
primitives (at least the three clip-range segments) instead of skipping
the frame. -/
theorem C9_degenerate_emits (scn : Scene) (obj : SceneObject)
    (hobj : scn.object = some obj) (htype : obj.otype = "CAMERA")
    (hfo : obj.data.dof.focus_object.isSome = true)
    (hrot : obj.matrix_world.rot ⟨0, 0, -1⟩ = ⟨0, 0, 0⟩) :
    3 ≤ (draw_callback_3d scn).2.length :=
  draw_callback_emits scn obj hobj htype

theorem C9_degenerate_emits_witness :
    scnDegen.object = some objDegen ∧ objDegen.otype = "CAMERA" ∧
      objDegen.data.dof.focus_object.isSome = true ∧
      objDegen.matrix_world.rot ⟨0, 0, -1⟩ = ⟨0, 0, 0⟩ ∧
      3 ≤ (draw_callback_3d scnDegen).2.length :=
  ⟨rfl, rfl, rfl, rfl, C9_degenerate_emits scnDegen objDegen rfl rfl rfl rfl⟩

/-- Definition following the spec's words (glossary: "Focus pick: an
interactive action resolving a world-space point to a scalar focus
distance along the camera's view axis"): the component of the offset from
the camera position to the point along the view axis, normalized by the
axis length. -/
def spec_view_axis_distance (cam_position view_axis pt : Vec3) : ℝ :=
  Vec3.dot (pt - cam_position) view_axis / view_axis.length

/-- C10: the focus-picking write does not equal the distance along the
camera's view axis: for a camera at the origin facing `-Z` and the 3d
cursor at `(0, 0, -5)`, the value written is `0` (the source's `distance`
helper drops the z-delta) while the view-axis distance is `5`. -/
theorem C10_counterexample :
    focusPicking_set_distance ⟨0, 0, -5⟩ ⟨0, 0, 0⟩ = 0 ∧
      spec_view_axis_distance ⟨0, 0, 0⟩ ⟨0, 0, -1⟩ ⟨0, 0, -5⟩ = 5 ∧
      focusPicking_set_distance ⟨0, 0, -5⟩ ⟨0, 0, 0⟩ ≠
        spec_view_axis_distance ⟨0, 0, 0⟩ ⟨0, 0, -1⟩ ⟨0, 0, -5⟩ := by
  have hA : focusPicking_set_distance ⟨0, 0, -5⟩ ⟨0, 0, 0⟩ = 0 := by
    simp [focusPicking_set_distance, distance, Vec3.length, Vec3.dot]
  have hB : spec_view_axis_distance ⟨0, 0, 0⟩ ⟨0, 0, -1⟩ ⟨0, 0, -5⟩ = 5 := by
    simp [spec_view_axis_distance, Vec3.length, Vec3.dot]
  exact ⟨hA, hB, by rw [hA, hB]; norm_num⟩

/-- C10 (amended): the focus-picking operator writes, on pointer release,
the horizontal world-plane distance between the picked 3d-cursor point and
the camera position — `sqrt((Δx)² + (Δy)²)`, with the world z-difference
discarded by the `distance` helper — not the distance along the camera's
view axis. -/
theorem C10_horizontal_distance (pt1 pt2 : Vec3) :
    focusPicking_set_distance pt1 pt2 =
      Real.sqrt ((pt1.x - pt2.x) ^ 2 + (pt1.y - pt2.y) ^ 2) := by
  unfold focusPicking_set_distance distance
  split_ifs with h
  · unfold Vec3.length
    congr 1
    simp [Vec3.dot]
    ring
  · unfold Vec3.length
    congr 1
    simp [Vec3.dot]
    ring

theorem circle_verts_aux_length (c s : ℝ) (k : ℕ) : ∀ (p : ℝ × ℝ),
    (circle_verts_aux c s p k).length = k := by
  induction k with
  | zero => intro p; rfl
  | succ n ih => intro p; simp [circle_verts_aux, ih]

theorem circle_verts_aux_getElem (c s : ℝ) (k : ℕ) : ∀ (p : ℝ × ℝ) (i : ℕ),
    i < k →
    (circle_verts_aux c s p k)[i]? =
      some ⟨((circle_step c s)^[i] p).1, ((circle_step c s)^[i] p).2, 0⟩ := by
  induction k with
  | zero => intro p i h; exact absurd h (Nat.not_lt_zero i)
  | succ n ih =>
    intro p i h
    cases i with
    | zero => simp [circle_verts_aux]
    | succ j =>
      have hj : j < n := Nat.lt_of_succ_lt_succ h
      simp only [circle_verts_aux, List.getElem?_cons_succ,
        Function.iterate_succ_apply]
      exact ih (circle_step c s p) j hj

/-- The incremental rotation of `draw_circle` iterated `i` times equals a
rotation by the total angle `i * θ`. -/
theorem circle_step_iterate (θ : ℝ) (i : ℕ) (p : ℝ × ℝ) :
    (circle_step (Real.cos θ) (Real.sin θ))^[i] p =
      (Real.cos (i * θ) * p.1 - Real.sin (i * θ) * p.2,
        Real.sin (i * θ) * p.1 + Real.cos (i * θ) * p.2) := by
  induction i with
  | zero => simp
  | succ n ih =>
    rw [Function.iterate_succ_apply', ih]
    unfold circle_step
    have hcast : ((n + 1 : ℕ) : ℝ) * θ = (n : ℝ) * θ + θ := by
      push_cast
      ring
    rw [hcast, Real.cos_add, Real.sin_add]
    simp only [Prod.mk.injEq]
    constructor <;> (dsimp only; ring)

/-- C7: for every pose, positive radius and segment count `3 ≤ n ≤ 32`,
the circle polyline built by `draw_circle` (at any depth offset, in
particular at `-nearLimit` and `-farLimit`) has exactly `n + 1` vertices
and is closed: its first and last vertices coincide exactly under real
arithmetic. -/
theorem C7_circle_closed (matrix : Pose) (radius offset : ℝ) (n : ℕ)
    (h3 : 3 ≤ n) (h32 : n ≤ 32) (hr : 0 < radius) :
    (draw_circle matrix radius n offset).length = n + 1 ∧
      (draw_circle matrix radius n offset).head? =
        (draw_circle matrix radius n offset).getLast? := by
  have hn : (n:ℝ) ≠ 0 := Nat.cast_ne_zero.mpr (by omega)
  have hlen : (draw_circle matrix radius n offset).length = n + 1 := by
    simp [draw_circle, circle_verts_aux_length]
  refine ⟨hlen, ?_⟩
  have h0 : (circle_verts_aux (Real.cos (2 * Real.pi / (n:ℝ)))
      (Real.sin (2 * Real.pi / (n:ℝ))) (radius, 0) (n + 1))[0]? =
      some ⟨radius, 0, 0⟩ := by
    rw [circle_verts_aux_getElem _ _ _ _ 0 (Nat.succ_pos n)]
    simp
  have hN : (circle_verts_aux (Real.cos (2 * Real.pi / (n:ℝ)))
      (Real.sin (2 * Real.pi / (n:ℝ))) (radius, 0) (n + 1))[n]? =
      some ⟨radius, 0, 0⟩ := by
    rw [circle_verts_aux_getElem _ _ _ _ n (Nat.lt_succ_self n)]
    rw [circle_step_iterate]
    have hnθ : (n : ℝ) * (2 * Real.pi / (n:ℝ)) = 2 * Real.pi := by
      field_simp
    rw [hnθ, Real.cos_two_pi, Real.sin_two_pi]
    norm_num
  rw [List.head?_eq_getElem?, List.getLast?_eq_getElem?, hlen,
    Nat.add_sub_cancel]
  simp only [draw_circle, List.getElem?_map]
  rw [h0, hN]

theorem C7_circle_closed_witness :
    3 ≤ 16 ∧ 16 ≤ 32 ∧ (0:ℝ) < 0.1 ∧
      ((draw_circle identity_pose 0.1 16 0).length = 16 + 1 ∧
        (draw_circle identity_pose 0.1 16 0).head? =
          (draw_circle identity_pose 0.1 16 0).getLast?) :=
  ⟨by norm_num, by norm_num, by norm_num,
    C7_circle_closed identity_pose 0.1 0 16 (by norm_num) (by norm_num)
      (by norm_num)⟩
